import Mathlib

/-!
Shallow embedding of the LeshenkoAMKR personal-library service
(`app/auth.py`, `app/crud.py`, `app/schemas.py`, `app/api/auth.py`,
`app/api/books.py`) together with theorems checking the specification's
claims against it.

Conventions of the embedding:
* byte strings are `List Nat` (each entry < 256 for real inputs);
* the database session is explicit state: every mutating operation
  returns the new table contents next to its result;
* `raise`/fallible paths are `Except`;
* SQLAlchemy's `scalar_one_or_none` is `scalarOneOrNone` (errors when
  more than one row matches, mirroring `MultipleResultsFound`).
-/

namespace Library

/-- UTF-8 encoding of a single code point, as `str.encode('utf-8')`
produces for one character. -/
def utf8EncodeChar (c : Nat) : List Nat :=
  if c < 0x80 then [c]
  else if c < 0x800 then [0xC0 + c / 0x40, 0x80 + c % 0x40]
  else if c < 0x10000 then
    [0xE0 + c / 0x1000, 0x80 + (c / 0x40) % 0x40, 0x80 + c % 0x40]
  else
    [0xF0 + c / 0x40000, 0x80 + (c / 0x1000) % 0x40,
     0x80 + (c / 0x40) % 0x40, 0x80 + c % 0x40]

/-- `s.encode('utf-8')` from Python: the byte string of a `str`. -/
def utf8Encode (s : String) : List Nat :=
  (s.data.map (fun c => utf8EncodeChar c.toNat)).flatten

/-- Salts are abstract identifiers: `bcrypt.gensalt()` draws a fresh one,
which the embedding passes explicitly. -/
abbrev Salt := Nat

/-- The digest part of a bcrypt hash string. -/
abbrev Digest := List Nat

/-- The core bcrypt digest computation (key, salt to digest).  Kept as a
parameter: the theorems hold for every choice of it. -/
abbrev RawBcrypt := List Nat → Salt → Digest

/-- A bcrypt output string is self-describing: it carries the salt next to
the digest, which is how `checkpw` re-runs the computation. -/
structure BcryptHash where
  salt : Salt
  digest : Digest
deriving DecidableEq, Repr

/-- Modelled from the spec: `bcrypt.hashpw` (the library itself is not part
of the sources).  The bcrypt algorithm uses at most the first 72 bytes of
the password — "longer inputs are silently truncated, not rejected". -/
def bcrypt_hashpw (raw : RawBcrypt) (password : List Nat) (salt : Salt) : BcryptHash :=
  { salt := salt, digest := raw (password.take 72) salt }

/-- Modelled from the spec: `bcrypt.checkpw` re-computes the digest from the
candidate password and the salt stored in the hash, under the same 72-byte
truncation rule, and compares. -/
def bcrypt_checkpw (raw : RawBcrypt) (password : List Nat) (h : BcryptHash) : Bool :=
  raw (password.take 72) h.salt == h.digest

/-- `verify_password` from `app/auth.py`: encodes the candidate and calls
`bcrypt.checkpw` against the stored hash (no explicit truncation here). -/
def verify_password (raw : RawBcrypt) (plain_password : String) (hashed : BcryptHash) : Bool :=
  bcrypt_checkpw raw (utf8Encode plain_password) hashed

/-- `hash_password` from `app/auth.py`: encodes, truncates the byte string
to 72 bytes when longer, and calls `bcrypt.hashpw` with a fresh salt (the
salt is an explicit argument here). -/
def hash_password (raw : RawBcrypt) (password : String) (salt : Salt) : BcryptHash :=
  let password_bytes := utf8Encode password
  let password_bytes :=
    if password_bytes.length > 72 then password_bytes.take 72 else password_bytes
  bcrypt_hashpw raw password_bytes salt

theorem hash_password_digest (raw : RawBcrypt) (password : String) (salt : Salt) :
    hash_password raw password salt =
      { salt := salt, digest := raw ((utf8Encode password).take 72) salt } := by
  unfold hash_password bcrypt_hashpw
  by_cases h : (utf8Encode password).length > 72
  · simp [h, List.take_take]
  · simp [h, List.take_of_length_le (Nat.le_of_not_lt h)]

/-- C2: verification applies the same 72-byte truncation rule as hashing:
any two passwords whose UTF-8 encodings agree on their first 72 bytes
verify against each other's hashes, for every salt and every bcrypt core. -/
theorem verify_truncation_consistent (raw : RawBcrypt) (p1 p2 : String) (salt : Salt)
    (h : (utf8Encode p1).take 72 = (utf8Encode p2).take 72) :
    verify_password raw p1 (hash_password raw p2 salt) = true := by
  rw [hash_password_digest]
  unfold verify_password bcrypt_checkpw
  simp [h]

/-- Witness for C2 at the literal inputs of the spec:
`"a"*80` and `"a"*72 + "zzzzzzzz"`. -/
theorem verify_truncation_consistent_witness :
    ((utf8Encode (String.mk (List.replicate 80 'a'))).take 72 =
      (utf8Encode (String.mk (List.replicate 72 'a' ++ List.replicate 8 'z'))).take 72) ∧
    verify_password (fun k _ => k) (String.mk (List.replicate 80 'a'))
      (hash_password (fun k _ => k)
        (String.mk (List.replicate 72 'a' ++ List.replicate 8 'z')) 0) = true :=
  ⟨by decide, verify_truncation_consistent (fun k _ => k) _ _ 0 (by decide)⟩

/-- The claim set a token carries: `create_access_token` always encodes a
`sub` entry (absent only for tokens minted elsewhere) and an `exp`
timestamp, in seconds. -/
structure Claims where
  sub : Option String
  exp : Int
deriving DecidableEq, Repr

/-- Modelled from the spec: a token as `jose.jwt.encode` produces it — the
embedded claim set plus a flag standing for "the signature verifies against
the shared secret and the encoding is well formed" (false covers both
signature mismatch and malformed encoding). -/
structure Token where
  claims : Claims
  sigOk : Bool
deriving DecidableEq, Repr

/-- Modelled from the spec: `jose.jwt.decode`, which fails (raises a
`JWTError`) on signature mismatch, malformed encoding, or an `exp` claim
strictly in the past. -/
def jwt_decode (t : Token) (now : Int) : Except Unit Claims :=
  if !t.sigOk then .error ()
  else if t.claims.exp < now then .error ()
  else .ok t.claims

/-- `create_access_token` from `app/auth.py`.  The guard is Python
truthiness (`if expires_delta:`), so both a missing and a zero delta fall
back to the hard-coded `timedelta(minutes=15)` default. -/
def create_access_token (sub : String) (now : Int) (expires_delta : Option Int) : Token :=
  let expire : Int :=
    match expires_delta with
    | some d => if d = 0 then now + 15 * 60 else now + d
    | none => now + 15 * 60
  { claims := { sub := some sub, exp := expire }, sigOk := true }

/-- Modelled from the spec: the `User` ORM row (`app/models.py` is not
among the sources): generated integer id, unique username, password hash. -/
structure User where
  id : Nat
  username : String
  hashed_password : BcryptHash
deriving DecidableEq, Repr

/-- SQLAlchemy's `scalar_one_or_none` on the rows a query returned: `none`
for no row, the row when it is unique, and an uncaught
`MultipleResultsFound` raise (`error`) otherwise. -/
def scalarOneOrNone : List α → Except Unit (Option α)
  | [] => .ok none
  | [a] => .ok (some a)
  | _ :: _ :: _ => .error ()

/-- How the bearer path fails: the 401 `credentials_exception`, or a raise
that escapes the handler (500). -/
inductive AuthFail where
  | unauthorized
  | serverError
deriving DecidableEq, Repr

/-- `get_current_user` from `app/auth.py` (bearer path).  The token
argument is what `oauth2_scheme` extracted from the Authorization header;
`OAuth2PasswordBearer` already rejects a missing header with 401, hence the
`none` case.  The user lookup sits outside the `try`, so a
duplicate-username table raises `MultipleResultsFound` past the handler;
every other failure raises the 401 `credentials_exception`. -/
def get_current_user (token : Option Token) (users : List User) (now : Int) :
    Except AuthFail User :=
  match token with
  | none => .error .unauthorized
  | some t =>
    match jwt_decode t now with
    | .error _ => .error .unauthorized
    | .ok payload =>
      match payload.sub with
      | none => .error .unauthorized
      | some username =>
        match scalarOneOrNone (users.filter (fun u => u.username == username)) with
        | .error _ => .error .serverError
        | .ok none => .error .unauthorized
        | .ok (some user) => .ok user

/-- `get_current_user_web` from `app/auth.py` (cookie path): same decoding
and lookup, but a missing cookie, an invalid token, or a missing `sub`
yields `none` instead of raising, and the `scalar_one_or_none` result is
returned as-is (so only `MultipleResultsFound` can still raise). -/
def get_current_user_web (cookieToken : Option Token) (users : List User) (now : Int) :
    Except Unit (Option User) :=
  match cookieToken with
  | none => .ok none
  | some t =>
    match jwt_decode t now with
    | .error _ => .ok none
    | .ok payload =>
      match payload.sub with
      | none => .ok none
      | some username =>
        scalarOneOrNone (users.filter (fun u => u.username == username))

/-- The `Token` response schema from `app/schemas.py`. -/
structure TokenResponse where
  access_token : Token
  token_type : String
deriving DecidableEq, Repr

/-- `authenticate_user` from `app/auth.py`: looks the user up by username
and checks the password; `False` (here `none`) when either fails. -/
def authenticate_user (raw : RawBcrypt) (users : List User) (username password : String) :
    Except Unit (Option User) :=
  match scalarOneOrNone (users.filter (fun u => u.username == username)) with
  | .error e => .error e
  | .ok none => .ok none
  | .ok (some u) =>
    if verify_password raw password u.hashed_password then .ok (some u) else .ok none

/-- `login` from `app/api/auth.py`: authenticates, answers 401 on bad
credentials, and issues a token with no explicit expiry — so
`create_access_token`'s default applies. -/
def login (raw : RawBcrypt) (users : List User) (username password : String) (now : Int) :
    Except Nat TokenResponse :=
  match authenticate_user raw users username password with
  | .error _ => .error 500
  | .ok none => .error 401
  | .ok (some u) =>
    .ok { access_token := create_access_token u.username now none, token_type := "bearer" }

/-- The user table plus its autoincrement counter. -/
structure UserDB where
  users : List User
  nextId : Nat
deriving DecidableEq, Repr

/-- `register` from `app/api/auth.py`: check-then-insert on the username
(400 when taken), then a token with an explicit 30-minute expiry.  Returns
the response next to the resulting table. -/
def register (raw : RawBcrypt) (db : UserDB) (username password : String) (salt : Salt)
    (now : Int) : Except Nat TokenResponse × UserDB :=
  match scalarOneOrNone (db.users.filter (fun u => u.username == username)) with
  | .error _ => (.error 500, db)
  | .ok (some _) => (.error 400, db)
  | .ok none =>
    let hashed_pw := hash_password raw password salt
    let db_user : User := { id := db.nextId, username := username, hashed_password := hashed_pw }
    let db2 : UserDB := { users := db.users ++ [db_user], nextId := db.nextId + 1 }
    (.ok { access_token := create_access_token username now (some (30 * 60)),
           token_type := "bearer" }, db2)

/-- A sample bcrypt core used to evaluate the embedding on closed inputs. -/
def demoRaw : RawBcrypt := fun k _ => k

/-- A sample registered user whose password is the literal `secret`. -/
def demoUser : User :=
  { id := 1, username := "alice", hashed_password := hash_password demoRaw "secret" 0 }

/-- Claim C3 (code-bug evidence): a login-issued token expires 15 minutes
after issuance, not the stated 30 — `login` passes no `expires_delta` and
`create_access_token`'s fallback is `timedelta(minutes=15)` (the
`ACCESS_TOKEN_EXPIRE_MINUTES = 30` constant is never used) — while the
registration path does pass an explicit 30 minutes.  The last conjunct
evaluates a concrete successful login end to end. -/
theorem login_token_expires_in_15_not_30_minutes :
    (∀ (sub : String) (now : Int),
      (create_access_token sub now none).claims.exp = now + 15 * 60 ∧
      (create_access_token sub now (some (30 * 60))).claims.exp = now + 30 * 60 ∧
      now + 15 * 60 ≠ now + 30 * 60) ∧
    login demoRaw [demoUser] "alice" "secret" 1000 =
      .ok { access_token :=
              { claims := { sub := some "alice", exp := 1000 + 15 * 60 }, sigOk := true },
            token_type := "bearer" } := by
  refine ⟨fun sub now => ⟨rfl, by simp [create_access_token], by omega⟩, ?_⟩
  rfl

/-- A token whose `exp` lies strictly in the past at time 0, with a valid
signature. -/
def demoExpiredToken : Token :=
  { claims := { sub := some "alice", exp := -1 }, sigOk := true }

/-- Claim C5: a token whose `exp` claim is strictly in the past is rejected
without escaping the boundary, whatever its signature status: the bearer
path answers 401 and the cookie path resolves no identity. -/
theorem expired_token_rejected (t : Token) (users : List User) (now : Int)
    (h : t.claims.exp < now) :
    get_current_user (some t) users now = .error .unauthorized ∧
    get_current_user_web (some t) users now = .ok none := by
  unfold get_current_user get_current_user_web jwt_decode
  by_cases hs : t.sigOk <;> simp [hs, h]

/-- Witness for C5: a concrete token issued already expired (`exp = -1`,
validated at time 0) is rejected on both paths. -/
theorem expired_token_rejected_witness :
    demoExpiredToken.claims.exp < (0 : Int) ∧
    (get_current_user (some demoExpiredToken) [] 0 = .error .unauthorized ∧
      get_current_user_web (some demoExpiredToken) [] 0 = .ok none) :=
  ⟨by decide, expired_token_rejected demoExpiredToken [] 0 (by decide)⟩

/-- Claim C6: the bearer and cookie resolvers run the same decoding and
lookup: they resolve the same user on the same token, the cookie path
answers `none` exactly where the bearer path answers 401, and the only
raise the cookie path lets through corresponds to the bearer path's own
uncaught raise. -/
theorem resolver_paths_agree (token : Option Token) (users : List User) (now : Int) :
    (∀ u : User,
      get_current_user_web token users now = .ok (some u) ↔
        get_current_user token users now = .ok u) ∧
    (get_current_user_web token users now = .ok none ↔
      get_current_user token users now = .error .unauthorized) ∧
    (get_current_user_web token users now = .error () ↔
      get_current_user token users now = .error .serverError) := by
  unfold get_current_user get_current_user_web
  cases token with
  | none => simp
  | some t =>
    cases hd : jwt_decode t now with
    | error e => simp [hd]
    | ok payload =>
      cases hs : payload.sub with
      | none => simp [hd, hs]
      | some username =>
        cases hq : scalarOneOrNone (users.filter (fun u => u.username == username)) with
        | error e => simp [hd, hs, hq]
        | ok r => cases r <;> simp [hd, hs, hq]

/-- Modelled from the spec: the `Book` ORM row (`app/models.py` is not
among the sources): generated integer id, title, author, description, and
an owner reference. -/
structure Book where
  id : Nat
  title : String
  author : String
  description : String
  owner_id : Nat
deriving DecidableEq, Repr

/-- The `BookUpdate` payload object from `app/schemas.py`, with pydantic's
set-tracking: the outer `Option` is "was the field explicitly present in
the request" (what `model_dump(exclude_unset=True)` keys on).  `title` and
`author` are `Optional[str]`, so a present value may itself be `None`;
`description` is annotated `str`, so a present value is a plain string. -/
structure BookUpdate where
  title : Option (Option String)
  author : Option (Option String)
  description : Option String
deriving DecidableEq, Repr

/-- The `for key, value in book_update.model_dump(exclude_unset=True)`
loop of `update_book`: every field present in the dump is applied unless
its value is `None`. -/
def applyBookUpdate (b : Book) (u : BookUpdate) : Book :=
  let b := match u.title with
    | some (some v) => { b with title := v }
    | _ => b
  let b := match u.author with
    | some (some v) => { b with author := v }
    | _ => b
  match u.description with
  | some v => { b with description := v }
  | none => b

/-- `get_book_by_id` from `app/crud.py`: the single row (if any) matching
the given id AND owner. -/
def get_book_by_id (books : List Book) (book_id owner_id : Nat) :
    Except Unit (Option Book) :=
  scalarOneOrNone (books.filter (fun b => b.id == book_id && b.owner_id == owner_id))

/-- `update_book` from `app/crud.py`: fetch under the caller's ownership,
`None` when absent, otherwise mutate the fetched row in place (the commit
makes the change durable, touching no other row) and return it. -/
def update_book (books : List Book) (book_id : Nat) (book_update : BookUpdate)
    (owner_id : Nat) : Except Unit (Option Book × List Book) :=
  match get_book_by_id books book_id owner_id with
  | .error e => .error e
  | .ok none => .ok (none, books)
  | .ok (some book) =>
    let book2 := applyBookUpdate book book_update
    .ok (some book2, books.map (fun b => if b.id == book.id then book2 else b))

/-- `delete_book` from `app/crud.py`: fetch under the caller's ownership,
`false` when absent, otherwise delete the fetched row (by primary key) and
report `true`. -/
def delete_book (books : List Book) (book_id owner_id : Nat) :
    Except Unit (Bool × List Book) :=
  match get_book_by_id books book_id owner_id with
  | .error e => .error e
  | .ok none => .ok (false, books)
  | .ok (some book) => .ok (true, books.filter (fun b => !(b.id == book.id)))

theorem filter_eq_singleton_of_key {α β : Type} (l : List α) (b : α) (f : α → β)
    (p : α → Bool) (hkeys : (l.map f).Nodup) (hb : b ∈ l) (hp : p b = true)
    (hkey : ∀ x ∈ l, p x = true → f x = f b) :
    l.filter p = [b] := by
  induction l with
  | nil => cases hb
  | cons x t ih =>
    have hx_not : f x ∉ t.map f := by
      have := hkeys
      simp only [List.map_cons, List.nodup_cons] at this
      exact this.1
    have ht_nodup : (t.map f).Nodup := by
      have := hkeys
      simp only [List.map_cons, List.nodup_cons] at this
      exact this.2
    rcases List.mem_cons.mp hb with hbx | hbt
    · subst hbx
      rw [List.filter_cons, if_pos hp]
      have : t.filter p = [] := by
        apply List.filter_eq_nil_iff.mpr
        intro y hy hpy
        have hyid : f y = f b := hkey y (List.mem_cons_of_mem _ hy) hpy
        exact hx_not (hyid ▸ List.mem_map_of_mem f hy)
      rw [this]
    · have hpx : ¬ p x = true := by
        intro hpx
        have hxid : f x = f b := hkey x (List.mem_cons_self x t) hpx
        exact hx_not (hxid ▸ List.mem_map_of_mem f hbt)
      rw [List.filter_cons, if_neg hpx]
      exact ih ht_nodup hbt (fun y hy hpy => hkey y (List.mem_cons_of_mem _ hy) hpy)

theorem get_book_by_id_owner (books : List Book) (b : Book)
    (hids : (books.map Book.id).Nodup) (hb : b ∈ books) :
    get_book_by_id books b.id b.owner_id = .ok (some b) := by
  unfold get_book_by_id
  rw [filter_eq_singleton_of_key books b Book.id _ hids hb (by simp)
    (fun x _ hx => by simpa using (Bool.and_elim_left hx))]
  rfl

theorem get_book_by_id_foreign (books : List Book) (b : Book) (caller : Nat)
    (hids : (books.map Book.id).Nodup) (hb : b ∈ books) (howner : b.owner_id ≠ caller) :
    get_book_by_id books b.id caller = .ok none := by
  unfold get_book_by_id
  have : books.filter (fun x => x.id == b.id && x.owner_id == caller) = [] := by
    apply List.filter_eq_nil_iff.mpr
    intro x hx hpx
    simp only [Bool.and_eq_true, beq_iff_eq] at hpx
    have : x = b := List.inj_on_of_nodup_map hids hx hb hpx.1
    exact howner (this ▸ hpx.2)
  rw [this]
  rfl

theorem get_book_by_id_absent (books : List Book) (book_id caller : Nat)
    (hfresh : ∀ x ∈ books, x.id ≠ book_id) :
    get_book_by_id books book_id caller = .ok none := by
  unfold get_book_by_id
  have : books.filter (fun x => x.id == book_id && x.owner_id == caller) = [] := by
    apply List.filter_eq_nil_iff.mpr
    intro x hx hpx
    simp only [Bool.and_eq_true, beq_iff_eq] at hpx
    exact hfresh x hx hpx.1
  rw [this]
  rfl

/-- The outcomes claim C1 promises: the three operations report not-found
for the foreign caller and leave the table untouched, each agreeing with
the outcome at an id that exists for no user, while the owner's own
get/update/delete succeed. -/
def OwnershipIsolated (books : List Book) (b : Book) (caller fresh : Nat)
    (u : BookUpdate) : Prop :=
  get_book_by_id books b.id caller = .ok none ∧
  update_book books b.id u caller = .ok (none, books) ∧
  delete_book books b.id caller = .ok (false, books) ∧
  get_book_by_id books b.id caller = get_book_by_id books fresh caller ∧
  update_book books b.id u caller = update_book books fresh u caller ∧
  delete_book books b.id caller = delete_book books fresh caller ∧
  get_book_by_id books b.id b.owner_id = .ok (some b) ∧
  (∃ bks, update_book books b.id u b.owner_id = .ok (some (applyBookUpdate b u), bks)) ∧
  (∃ bks, delete_book books b.id b.owner_id = .ok (true, bks))

/-- Claim C1: ownership isolation.  For a book whose owner differs from the
caller, `get_book_by_id` returns `None`, `update_book` returns `None`, and
`delete_book` returns `false`, leaving the table unchanged — identically
to the same operation at an id that exists for no user — while the owner's
own get/update/delete on that book succeed. -/
theorem ownership_isolation (books : List Book) (b : Book) (caller fresh : Nat)
    (u : BookUpdate) (hb : b ∈ books) (howner : b.owner_id ≠ caller)
    (hids : (books.map Book.id).Nodup) (hfresh : ∀ x ∈ books, x.id ≠ fresh) :
    OwnershipIsolated books b caller fresh u := by
  have gfor := get_book_by_id_foreign books b caller hids hb howner
  have gfr := get_book_by_id_absent books fresh caller hfresh
  have gown := get_book_by_id_owner books b hids hb
  refine ⟨gfor, ?_, ?_, gfor.trans gfr.symm, ?_, ?_, gown, ?_, ?_⟩
  · unfold update_book; rw [gfor]
  · unfold delete_book; rw [gfor]
  · unfold update_book; rw [gfor, gfr]
  · unfold delete_book; rw [gfor, gfr]
  · unfold update_book; rw [gown]; exact ⟨_, rfl⟩
  · unfold delete_book; rw [gown]; exact ⟨_, rfl⟩

/-- A sample book owned by user 7, as in the spec's literal scenario. -/
def demoBook : Book :=
  { id := 1, title := "T", author := "A", description := "D", owner_id := 7 }

/-- The literal update payload of the spec: `title` present but `None`,
`author` present with value `B`, `description` absent. -/
def demoUpdate : BookUpdate :=
  { title := some none, author := some (some "B"), description := none }

/-- Witness for C1 on a one-book table: a caller with id 2 against user
7's book, and 99 as the id that exists for no user. -/
theorem ownership_isolation_witness :
    (demoBook ∈ [demoBook] ∧ demoBook.owner_id ≠ 2 ∧
      ([demoBook].map Book.id).Nodup ∧ (∀ x ∈ [demoBook], x.id ≠ 99)) ∧
    OwnershipIsolated [demoBook] demoBook 2 99 demoUpdate :=
  ⟨⟨by decide, by decide, by decide, by decide⟩,
    ownership_isolation [demoBook] demoBook 2 99 demoUpdate
      (by decide) (by decide) (by decide) (by decide)⟩

/-- Claim C4: partial update is a frame.  On an existing owned book,
`update_book` succeeds, and the resulting record takes the payload's value
exactly for the fields explicitly present with a non-`None` value, keeping
every other field (including id and owner) unchanged; rows other than the
addressed one are untouched. -/
theorem update_book_frame (books : List Book) (b : Book) (u : BookUpdate)
    (hb : b ∈ books) (hids : (books.map Book.id).Nodup) :
    ∃ b2 bks, update_book books b.id u b.owner_id = .ok (some b2, bks) ∧
      b2.title = (match u.title with | some (some v) => v | _ => b.title) ∧
      b2.author = (match u.author with | some (some v) => v | _ => b.author) ∧
      b2.description = (match u.description with | some v => v | none => b.description) ∧
      b2.id = b.id ∧ b2.owner_id = b.owner_id ∧
      bks = books.map (fun x => if x.id == b.id then b2 else x) := by
  refine ⟨applyBookUpdate b u, books.map (fun x => if x.id == b.id then applyBookUpdate b u else x),
    ?_, ?_, ?_, ?_, ?_, ?_, rfl⟩
  · unfold update_book
    rw [get_book_by_id_owner books b hids hb]
  all_goals
    obtain ⟨t, a, d⟩ := u
    rcases t with _ | _ | v <;> rcases a with _ | _ | w <;> rcases d with _ | x <;>
      simp [applyBookUpdate]

/-- Witness for C4, the spec's literal scenario: book
`{title: T, author: A, description: D}` updated with
`{title: None, author: B}` yields `{title: T, author: B, description: D}`. -/
theorem update_book_frame_witness :
    (demoBook ∈ [demoBook] ∧ ([demoBook].map Book.id).Nodup) ∧
    ∃ b2 bks, update_book [demoBook] demoBook.id demoUpdate demoBook.owner_id =
        .ok (some b2, bks) ∧
      b2.title = "T" ∧ b2.author = "B" ∧ b2.description = "D" ∧
      b2.id = demoBook.id ∧ b2.owner_id = demoBook.owner_id ∧
      bks = [demoBook].map (fun x => if x.id == demoBook.id then b2 else x) :=
  ⟨⟨by decide, by decide⟩,
    update_book_frame [demoBook] demoBook demoUpdate (by decide) (by decide)⟩

/-- ASCII lowercasing of one code point, as SQLite's `lower()` applies it
when evaluating `ilike`. -/
def lowerB (n : Nat) : Nat := if 65 ≤ n ∧ n ≤ 90 then n + 32 else n

/-- The code points of a string. -/
def cps (s : String) : List Nat := s.data.map Char.toNat

/-- Lowercased code points of a string. -/
def lowerCps (s : String) : List Nat := (cps s).map lowerB

/-- Does `needle` start `hay`? -/
def isPre : List Nat → List Nat → Bool
  | [], _ => true
  | _ :: _, [] => false
  | a :: as, b :: bs => a == b && isPre as bs

/-- Does `needle` occur inside `hay` as a contiguous run? -/
def hasSub (hay needle : List Nat) : Bool :=
  hay.tails.any (fun t => isPre needle t)

/-- The relation the spec's search sentence describes: the needle is a
case-insensitive substring of the haystack. -/
def ciSubstr (needle hay : String) : Bool := hasSub (lowerCps hay) (lowerCps needle)

/-- SQL `LIKE` pattern matching over code points: 37 (`%`) matches any
run, 95 (`_`) matches any single code point, anything else matches
itself. -/
def likeMatch : List Nat → List Nat → Bool
  | [], t => t.isEmpty
  | c :: p, t =>
    if c = 37 then t.tails.any (fun t2 => likeMatch p t2)
    else if c = 95 then
      match t with
      | [] => false
      | _ :: t2 => likeMatch p t2
    else
      match t with
      | [] => false
      | c2 :: t2 => c == c2 && likeMatch p t2

/-- SQLAlchemy's `ilike`: case-insensitive `LIKE`, i.e. `LIKE` over the
lowercased operands. -/
def ilike (text pattern : String) : Bool := likeMatch (lowerCps pattern) (lowerCps text)

/-- The row sequence of `get_books`' query before offset/limit (the
`query` variable in `app/crud.py`): the owner filter, then — when
`search` is truthy — the interpolated `ilike` OR-filter, in insertion
order. -/
def buildQuery (books : List Book) (owner_id : Nat) (search : Option String) : List Book :=
  let q := books.filter (fun b => b.owner_id == owner_id)
  match search with
  | some s =>
    if s = "" then q
    else q.filter (fun b => ilike b.title ("%" ++ s ++ "%") || ilike b.author ("%" ++ s ++ "%"))
  | none => q

/-- `get_books` from `app/crud.py`: the query's rows after
`.offset(skip).limit(limit)`. -/
def get_books (books : List Book) (owner_id skip limit : Nat) (search : Option String) :
    List Book :=
  ((buildQuery books owner_id search).drop skip).take limit

/-- `read_books` from `app/api/books.py`: forwards only `search`, so
`get_books`' defaults `skip = 0, limit = 100` apply. -/
def read_books (books : List Book) (owner_id : Nat) (search : Option String) : List Book :=
  get_books books owner_id 0 100 search

/-- The sequence claim C8 promises: the owner's books whose title or
author contains the search case-insensitively, in insertion order. -/
def searchMatches (books : List Book) (owner_id : Nat) (s : String) : List Book :=
  books.filter (fun b => b.owner_id == owner_id && (ciSubstr s b.title || ciSubstr s b.author))

theorem anyCongr (p q : α → Bool) (l : List α) (h : ∀ a ∈ l, p a = q a) :
    l.any p = l.any q := by
  induction l with
  | nil => rfl
  | cons x t ih =>
    simp only [List.any_cons]
    rw [h x (List.mem_cons_self x t), ih (fun a ha => h a (List.mem_cons_of_mem _ ha))]

theorem likeMatch_trailing_wild (s t : List Nat) (hs : ∀ c ∈ s, c ≠ 37 ∧ c ≠ 95) :
    likeMatch (s ++ [37]) t = isPre s t := by
  induction s generalizing t with
  | nil =>
    simp only [List.nil_append]
    show likeMatch [37] t = isPre [] t
    rw [show isPre [] t = true from rfl]
    unfold likeMatch
    rw [if_pos rfl]
    induction t with
    | nil => rfl
    | cons c t2 iht =>
      simp only [List.tails]
      rw [List.any_cons]
      simp only at iht
      rw [iht]
      exact Bool.or_true _
  | cons c s2 ih =>
    have hc := hs c (List.mem_cons_self c s2)
    have hs2 : ∀ x ∈ s2, x ≠ 37 ∧ x ≠ 95 := fun x hx => hs x (List.mem_cons_of_mem _ hx)
    rw [List.cons_append]
    unfold likeMatch
    rw [if_neg hc.1, if_neg hc.2]
    cases t with
    | nil => rfl
    | cons c2 t2 =>
      show (c == c2 && likeMatch (s2 ++ [37]) t2) = (c == c2 && isPre s2 t2)
      rw [ih t2 hs2]

theorem likeMatch_both_wild (s t : List Nat) (hs : ∀ c ∈ s, c ≠ 37 ∧ c ≠ 95) :
    likeMatch (37 :: (s ++ [37])) t = hasSub t s := by
  unfold likeMatch hasSub
  rw [if_pos rfl]
  exact anyCongr _ _ _ (fun t2 _ => likeMatch_trailing_wild s t2 hs)

theorem lowerB_keeps_wildcard_free (n : Nat) (h : n ≠ 37 ∧ n ≠ 95) :
    lowerB n ≠ 37 ∧ lowerB n ≠ 95 := by
  unfold lowerB
  split <;> omega

theorem ilike_wildcard_free (s text : String) (hwf : ∀ n ∈ lowerCps s, n ≠ 37 ∧ n ≠ 95) :
    ilike text ("%" ++ s ++ "%") = ciSubstr s text := by
  unfold ilike ciSubstr
  have hdata : ("%" ++ s ++ "%").data = '%' :: (s.data ++ ['%']) := by
    rw [String.data_append, String.data_append]
    rfl
  have hlower : lowerCps ("%" ++ s ++ "%") = 37 :: (lowerCps s ++ [37]) := by
    unfold lowerCps cps
    rw [hdata]
    simp only [List.map_cons, List.map_append]
    rfl
  rw [hlower, likeMatch_both_wild (lowerCps s) (lowerCps text) hwf]

/-- Claim C8 (amended): for every non-empty search string free of the SQL
LIKE wildcards `%` and `_` (code points 37 and 95), and when at most
`limit` rows match, `get_books` with `skip = 0` returns exactly the
owner's books whose title or author contains the search string
case-insensitively — logical OR — in insertion order. -/
theorem get_books_search_semantics (books : List Book) (owner_id limit : Nat) (s : String)
    (hne : s ≠ "") (hwf : ∀ n ∈ cps s, n ≠ 37 ∧ n ≠ 95)
    (hlen : (searchMatches books owner_id s).length ≤ limit) :
    get_books books owner_id 0 limit (some s) = searchMatches books owner_id s := by
  have hwf2 : ∀ n ∈ lowerCps s, n ≠ 37 ∧ n ≠ 95 := by
    intro n hn
    rcases List.mem_map.mp hn with ⟨m, hm, rfl⟩
    exact lowerB_keeps_wildcard_free m (hwf m hm)
  have hq : buildQuery books owner_id (some s) = searchMatches books owner_id s := by
    unfold buildQuery searchMatches
    simp only
    rw [if_neg hne, List.filter_filter]
    apply List.filter_congr
    intro b _
    rw [ilike_wildcard_free s b.title hwf2, ilike_wildcard_free s b.author hwf2,
      Bool.and_comm]
  unfold get_books
  rw [hq, List.drop_zero, List.take_of_length_le hlen]

/-- A book against which a wildcard search misbehaves. -/
def wildBook : Book :=
  { id := 1, title := "Harry", author := "X", description := "", owner_id := 1 }

/-- Counterexample to C8 as stated: the non-empty search `h%y` is not a
case-insensitive substring of either field of the book `Harry`, yet
`get_books` returns that book — the search is interpolated into the LIKE
pattern unescaped, so `%` stays a live wildcard. -/
theorem get_books_search_counterexample :
    get_books [wildBook] 1 0 100 (some "h%y") ≠ searchMatches [wildBook] 1 "h%y" ∧
    get_books [wildBook] 1 0 100 (some "h%y") = [wildBook] ∧
    ciSubstr "h%y" wildBook.title = false ∧
    ciSubstr "h%y" wildBook.author = false := by
  refine ⟨?_, by decide, by decide, by decide⟩
  decide

/-- The spec's literal search example. -/
def hpBook : Book :=
  { id := 1, title := "Harry Potter", author := "Rowling", description := "", owner_id := 5 }

/-- Witness for C8 (amended) at the spec's literal example: the book
`Harry Potter` / `Rowling` is found by the uppercase search `ROW`. -/
theorem get_books_search_semantics_witness :
    ("ROW" ≠ "" ∧ (∀ n ∈ cps "ROW", n ≠ 37 ∧ n ≠ 95) ∧
      (searchMatches [hpBook] 5 "ROW").length ≤ 100) ∧
    get_books [hpBook] 5 0 100 (some "ROW") = searchMatches [hpBook] 5 "ROW" :=
  ⟨⟨by decide, by decide, by decide⟩,
    get_books_search_semantics [hpBook] 5 100 "ROW" (by decide) (by decide) (by decide)⟩

/-- Claim C10: the API listing path caps its output at 100 rows:
`read_books` returns at most 100 books, its output is a prefix (insertion
order) of the full query result, and its length is the minimum of 100 and
the full result's length — matching books past the first 100 are silently
omitted. -/
theorem read_books_caps_at_100 (books : List Book) (owner_id : Nat)
    (search : Option String) :
    (read_books books owner_id search).length ≤ 100 ∧
    read_books books owner_id search <+: buildQuery books owner_id search ∧
    (read_books books owner_id search).length =
      min 100 (buildQuery books owner_id search).length := by
  unfold read_books get_books
  rw [List.drop_zero]
  exact ⟨by simp, List.take_prefix _ _, by simp⟩

/-- The outcomes claim C7 promises for `register`: with the username free
it succeeds, answers token type `bearer`, appends exactly one user record,
and a second registration of the same username then fails with 400 adding
nothing; with the username taken it fails with 400 and leaves the table
unchanged. -/
def RegisterContract (raw : RawBcrypt) (db : UserDB) (username password : String)
    (salt : Salt) (now : Int) : Prop :=
  ((∀ u ∈ db.users, u.username ≠ username) →
    ∃ r db2, register raw db username password salt now = (.ok r, db2) ∧
      r.token_type = "bearer" ∧
      db2.users = db.users ++
        [{ id := db.nextId, username := username,
           hashed_password := hash_password raw password salt }] ∧
      ∀ salt2 now2, register raw db2 username password salt2 now2 = (.error 400, db2)) ∧
  ((∃ u ∈ db.users, u.username = username) →
    register raw db username password salt now = (.error 400, db))

/-- Claim C7: registration conflict.  Over a table with unique usernames,
registering a free username succeeds with a bearer token and adds exactly
that user; registering a taken username fails with status 400 and adds no
user record — so the first registration succeeds and the second fails. -/
theorem register_conflict (raw : RawBcrypt) (db : UserDB) (username password : String)
    (salt : Salt) (now : Int)
    (hnodup : (db.users.map User.username).Nodup) :
    RegisterContract raw db username password salt now := by
  constructor
  · intro hfree
    have hnil : db.users.filter (fun u => u.username == username) = [] := by
      apply List.filter_eq_nil_iff.mpr
      intro u hu hpu
      exact hfree u hu (by simpa using hpu)
    have hreg : register raw db username password salt now =
        (.ok { access_token := create_access_token username now (some (30 * 60)),
               token_type := "bearer" },
         { users := db.users ++
             [{ id := db.nextId, username := username,
                hashed_password := hash_password raw password salt }],
           nextId := db.nextId + 1 }) := by
      unfold register
      rw [hnil]
      rfl
    refine ⟨_, _, hreg, rfl, rfl, ?_⟩
    intro salt2 now2
    unfold register
    have hflt : (db.users ++
        ([{ id := db.nextId, username := username,
            hashed_password := hash_password raw password salt }] : List User)).filter
          (fun u => u.username == username) =
        [{ id := db.nextId, username := username,
           hashed_password := hash_password raw password salt }] := by
      rw [List.filter_append, hnil]
      simp
    simp only
    rw [hflt]
    rfl
  · intro ⟨u, hu, huname⟩
    have hone : db.users.filter (fun x => x.username == username) = [u] := by
      apply filter_eq_singleton_of_key db.users u User.username _ hnodup hu
        (by simp [huname])
      intro y _ hpy
      rw [huname]
      simpa using hpy
    unfold register
    rw [hone]
    rfl

/-- A fresh, empty user table. -/
def emptyUserDB : UserDB := { users := [], nextId := 0 }

/-- Witness for C7: on the empty table, registering `bob` succeeds and a
second registration of `bob` fails with 400. -/
theorem register_conflict_witness :
    ((emptyUserDB.users.map User.username).Nodup) ∧
    RegisterContract demoRaw emptyUserDB "bob" "hunter22" 5 0 :=
  ⟨by decide, register_conflict demoRaw emptyUserDB "bob" "hunter22" 5 0 (by decide)⟩

/-- The validated `BookCreate` object from `app/schemas.py`: all three
fields are declared required (`Field(...)`), the description included,
with lengths title 1–200, author 1–100, description 1–1000. -/
structure BookCreate where
  title : String
  author : String
  description : String
deriving DecidableEq, Repr

/-- How pydantic validation of a request body field fails. -/
inductive FieldError where
  | missing
  | badLength
deriving DecidableEq, Repr

/-- Pydantic's validation of a `BookCreate` request body (each payload
field present or absent): every field of the schema is required, and the
declared length bounds apply. -/
def validateBookCreate (title author description : Option String) :
    Except FieldError BookCreate :=
  match title, author, description with
  | some t, some a, some d =>
    if 1 ≤ t.length ∧ t.length ≤ 200 ∧ 1 ≤ a.length ∧ a.length ≤ 100 ∧
        1 ≤ d.length ∧ d.length ≤ 1000 then
      .ok { title := t, author := a, description := d }
    else .error .badLength
  | _, _, _ => .error .missing

/-- `create_book` from `app/crud.py` on a validated `BookCreate`: inserts
a new row with a fresh id and returns it.  (The source's
`book.description if book.description is not None else ""` fallback is
dead on a validated object, whose `description` is a plain `str`.) -/
def create_book (books : List Book) (book : BookCreate) (owner_id nextId : Nat) :
    Book × List Book :=
  let db_book : Book :=
    { id := nextId, title := book.title, author := book.author,
      description := book.description, owner_id := owner_id }
  (db_book, books ++ [db_book])

/-- Claim C9 (code-bug evidence): a create request with the description
field absent is rejected by the `BookCreate` schema for every title and
author — and even an explicit empty description is rejected by its
`min_length=1` — so the request never reaches `crud.create_book`; yet
that function's own `is not None else ""` fallback (and the web route's
`BookCreate(title=..., author=...)` call, which this schema makes raise)
treat the description as optional.  The last conjunct shows the insertion
`create_book` would perform, empty description included, had the payload
passed. -/
theorem create_book_description_required :
    (∀ t a : String, validateBookCreate (some t) (some a) none = .error .missing) ∧
    validateBookCreate (some "T") (some "A") (some "") = .error .badLength ∧
    create_book [] { title := "T", author := "A", description := "" } 7 1 =
      ({ id := 1, title := "T", author := "A", description := "", owner_id := 7 },
        [{ id := 1, title := "T", author := "A", description := "", owner_id := 7 }]) := by
  refine ⟨fun t a => rfl, ?_, rfl⟩
  simp only [validateBookCreate]
  rw [if_neg (by decide)]

end Library
